import Mathlib

/-!
Verification development for the Empire Audio device transport & discovery
layer: the Bose EX440 integration (`Bose_ex440_integration.py`), the Empire
Bridge discovery protocol (`empire_bridge_discovery.py`) and the Global Cache
iTach integration (`integration.py`).

The Python code is embedded shallowly: pure command encoding, link-command
dispatch, connection state management and the discovery receive loops become
Lean functions; network and serial I/O is represented by explicit effect
lists, and the receive loop is driven by an explicit list of receive events
(each event is either a poll timeout or a datagram).  Floating point values
are modelled as rationals: every numeric constant in the code (-60.5, 12.0,
source bounds 1 and 16) and every value the properties mention is exactly
representable, so rational arithmetic agrees with the Python float
arithmetic on everything stated here.
-/

namespace EmpireAudio

/-! ## Python value and attribute model -/

/-- A Python runtime value as passed for the `value` argument of
`handle_link_command`.  Numeric strings are not converted by any property
below, so `float`/`int` applied to a `str` is modelled as a conversion
failure. -/
inductive PyVal where
  | int (n : ℤ)
  | float (q : ℚ)
  | bool (b : Bool)
  | str (s : String)
deriving DecidableEq, Repr

/-- Python `float(value)`: identity on floats, exact injection of ints,
`True`/`False` become `1.0`/`0.0`.  String parsing is not modelled (no
claim converts a string value), so it is a conversion failure (`none`). -/
def pyFloat : PyVal → Option ℚ
  | .int n => some (n : ℚ)
  | .float q => some q
  | .bool b => some (if b then 1 else 0)
  | .str _ => none

/-- Python `int(value)`: identity on ints, truncation toward zero on floats,
`True`/`False` become `1`/`0`; string parsing is not modelled. -/
def pyInt : PyVal → Option ℤ
  | .int n => some n
  | .float q => some (q.num / (q.den : ℤ))
  | .bool b => some (if b then 1 else 0)
  | .str _ => none

/-- Python `bool(value)` (truthiness). -/
def pyBool : PyVal → Bool
  | .int n => n ≠ 0
  | .float q => q ≠ 0
  | .bool b => b
  | .str s => s ≠ ""

/-- A Python instance attribute.  `missing` means the attribute was never
assigned (`hasattr` is false), `pyNone` means it holds `None`, `val a`
means it holds a (truthy) object `a`. -/
inductive PyAttr (α : Type) where
  | missing
  | pyNone
  | val (a : α)
deriving DecidableEq, Repr

/-- Python `hasattr(self, ...)`: true unless the attribute was never set. -/
def PyAttr.hasattr {α : Type} : PyAttr α → Bool
  | .missing => false
  | _ => true

/-- Truthiness of the attribute's value (`None` is falsy, a held handle
object is truthy). -/
def PyAttr.truthy {α : Type} : PyAttr α → Bool
  | .val _ => true
  | _ => false

/-! ## Python string helpers -/

/-- Split a character list at the first occurrence of `sep`:
`some (before, after)` when `sep` occurs, `none` otherwise. -/
def splitFirst (sep : Char) : List Char → Option (List Char × List Char)
  | [] => none
  | c :: cs =>
    if c = sep then some ([], cs)
    else match splitFirst sep cs with
      | none => none
      | some (a, b) => some (c :: a, b)

/-- Python `s.split(sep, 1)`: `[s]` when `sep` does not occur in `s`,
otherwise the two pieces around the first occurrence. -/
def pySplit1 (sep : Char) (s : String) : List String :=
  match splitFirst sep s.data with
  | none => [s]
  | some (a, b) => [⟨a⟩, ⟨b⟩]

/-- Python `needle in hay` on strings: substring containment. -/
def pyIn (needle hay : String) : Bool :=
  hay.data.tails.any (fun t => needle.data.isPrefixOf t)

/-- Split a character list at every occurrence of `sep`, keeping empty
pieces (the semantics of Python `s.split(sep)` for a one-character
separator). -/
def splitChar (sep : Char) : List Char → List (List Char)
  | [] => [[]]
  | c :: cs =>
    let r := splitChar sep cs
    if c = sep then [] :: r
    else
      match r with
      | [] => [[c]]
      | a :: rest => (c :: a) :: rest

/-- Python `s.split(sep)` for a one-character separator string. -/
def pySplitAll (sep : Char) (s : String) : List String :=
  (splitChar sep s.data).map (fun l => ⟨l⟩)

/-- Python `str()` of a float, restricted to the values that occur in this
development: floats with an exact value of the form `k` or `k + 1/2`
(every constant and every clamped volume level in the stated properties is
of this shape).  Other rationals do not arise; for them the rendering is a
placeholder and no property depends on it. -/
def pyFloatStr (q : ℚ) : String :=
  if q.den = 1 then toString q.num ++ ".0"
  else if q.den = 2 then
    (if q.num < 0 then "-" else "") ++ toString (q.num.natAbs / 2) ++ ".5"
  else toString q.num ++ "/" ++ toString q.den

/-! ## Configuration (`self.config`) -/

/-- One entry of `config['zones']`.  Every field is read with `dict.get`
in the code, so each is optional. -/
structure ZoneCfg where
  id : Option String
  volume_module : Option String
  mute_module : Option String
  source_module : Option String
deriving DecidableEq, Repr

/-- `config['connection']`.  `type` is read with a `'serial'` default;
`bridge_id` is read with direct indexing only on the bridge path, and is
modelled as always present (no claim exercises a missing `bridge_id`). -/
structure ConnCfg where
  ctype : Option String
  bridge_id : String
deriving DecidableEq, Repr

/-- The integration's configuration dict, restricted to the keys the
embedded code reads.  `mqtt_client` models the truthiness of the
`self.mqtt_client` collaborator handle consulted on the bridge path. -/
structure Config where
  connection : Option ConnCfg
  zones : List ZoneCfg
  mqtt_client : Bool
deriving DecidableEq, Repr

/-- `self.config.get('connection', {}).get('type', 'serial')`. -/
def connType (cfg : Config) : String :=
  ((cfg.connection.bind fun c => c.ctype).getD "serial")

/-- `get_zone_config`: first zone whose `id` equals `zone_id`, else `None`. -/
def getZoneConfig (cfg : Config) (zone_id : String) : Option ZoneCfg :=
  cfg.zones.find? (fun z => z.id == some zone_id)

/-! ## Transport state (`__init__` / `connect` / `disconnect` / `send_command`) -/

/-- The connection-bearing attributes of a `BoseEX440V3Integration`
instance.  Handles are numbered by `nextHandle` so that distinct
establishment events yield distinct handles (a fresh `serial.Serial` /
`asyncio.open_connection` result is a new object). -/
structure DeviceState where
  serial_conn : PyAttr ℕ
  reader : PyAttr ℕ
  writer : PyAttr ℕ
  nextHandle : ℕ
deriving DecidableEq, Repr

/-- `__init__`: all three attributes are assigned `None`. -/
def initState : DeviceState :=
  { serial_conn := .pyNone, reader := .pyNone, writer := .pyNone, nextHandle := 0 }

/-- `connect`: dispatch on the configured connection type.  `serial` and
`tcp` open a fresh transport and overwrite the corresponding attributes;
`bridge` is a `pass`; an unrecognized type matches no branch.  Opening is
modelled as succeeding (the connection-refused path raises and is not
reached by any property below). -/
def connect (cfg : Config) (st : DeviceState) : DeviceState :=
  let ct := connType cfg
  if ct = "serial" then
    { st with serial_conn := .val st.nextHandle, nextHandle := st.nextHandle + 1 }
  else if ct = "tcp" then
    { st with reader := .val st.nextHandle, writer := .val (st.nextHandle + 1),
              nextHandle := st.nextHandle + 2 }
  else st

/-- `disconnect`: close and clear the serial handle if present and truthy,
then close and clear the writer (and reader) if present and truthy. -/
def disconnect (st : DeviceState) : DeviceState :=
  let st1 :=
    if st.serial_conn.hasattr && st.serial_conn.truthy then
      { st with serial_conn := .pyNone }
    else st
  if st1.writer.hasattr && st1.writer.truthy then
    { st1 with writer := .pyNone, reader := .pyNone }
  else st1

/-- A byte-level transport action performed by `send_command`. -/
inductive Wire where
  | serialWrite (bytes : String)
  | tcpWrite (bytes : String)
  | mqttPublish (topic payload : String)
deriving DecidableEq, Repr

/-- `send_command`: replace the `<CR>` placeholder with a carriage return,
then (only when BOTH `serial_conn` and `writer` attributes are absent)
perform the implicit `connect`, then write on whichever transport matches
the configured type and holds a truthy handle.  Returns the updated state
and the writes performed. -/
def sendCommand (cfg : Config) (st : DeviceState) (command : String) :
    DeviceState × List Wire :=
  let cmd := command.replace "<CR>" "\r"
  let ct := connType cfg
  let st := if !st.serial_conn.hasattr && !st.writer.hasattr then connect cfg st else st
  if ct = "serial" && st.serial_conn.hasattr && st.serial_conn.truthy then
    (st, [.serialWrite cmd])
  else if ct = "tcp" && st.writer.hasattr && st.writer.truthy then
    (st, [.tcpWrite cmd])
  else if ct = "bridge" then
    (st, if cfg.mqtt_client then
      [.mqttPublish ("bridges/" ++ (cfg.connection.map fun c => c.bridge_id).getD "" ++ "/command") cmd]
    else [])
  else (st, [])

/-! ## Command encoding and link-command dispatch -/

/-- The command string built in `_cmd_set_volume`:
`SA"<module>">1><level><CR>` where `<level>` is the Python rendering of the
clamped float. -/
def volumeCmd (module_name : String) (level_db : ℚ) : String :=
  "SA\"" ++ module_name ++ "\">1>" ++ pyFloatStr level_db ++ "<CR>"

/-- The command string built in `_cmd_toggle_mute`:
`SA"<module>">2>O<CR>` when muting, `SA"<module>">2>F<CR>` when unmuting. -/
def muteCmd (module_name : String) (mute : Bool) : String :=
  "SA\"" ++ module_name ++ "\">2>" ++ (if mute then "O" else "F") ++ "<CR>"

/-- The command string built in `_cmd_set_source`:
`SA"<module>">1><n><CR>`. -/
def sourceCmd (module_name : String) (source_num : ℤ) : String :=
  "SA\"" ++ module_name ++ "\">1>" ++ toString source_num ++ "<CR>"

/-- Python `min(a, b)` on rationals (the first argument on ties). -/
def pyMin (a b : ℚ) : ℚ := if a ≤ b then a else b

/-- Python `max(a, b)` on rationals (the second argument is returned only
when strictly larger; on ties Python returns the first, same value). -/
def pyMax (a b : ℚ) : ℚ := if a ≤ b then b else a

/-- Python `min(a, b)` on integers. -/
def pyMinZ (a b : ℤ) : ℤ := if a ≤ b then a else b

/-- Python `max(a, b)` on integers. -/
def pyMaxZ (a b : ℤ) : ℤ := if a ≤ b then b else a

/-- The volume clamp in `_cmd_set_volume`: `max(-60.5, min(12.0, level_db))`.
The source's float literals `-60.5` and `12.0` are written as `mkRat (-121) 2`
and `12` because the decimal-literal (`OfScientific`) coercion into `ℚ` is
irreducible and would block concrete evaluation; the values are identical
(see `minus_sixty_point_five` below). -/
def volumeClamp (level_db : ℚ) : ℚ :=
  pyMax (mkRat (-121) 2) (pyMin 12 level_db)

/-- The source clamp in `_cmd_set_source`: `max(1, min(16, source_num))`. -/
def sourceClamp (source_num : ℤ) : ℤ :=
  pyMaxZ 1 (pyMinZ 16 source_num)

/-- An observable action of the command dispatcher: a `send_command`
invocation (the command still carries the literal `<CR>` placeholder) or a
`publish_state(zone_id, parameter, value)` call on the base-class sink. -/
inductive Effect where
  | send (cmd : String)
  | publish (zone_id parameter : String) (value : PyVal)
deriving DecidableEq, Repr

/-- `_cmd_set_volume`: clamp, encode, send, then publish the clamped level. -/
def cmdSetVolume (zone_id module_name : String) (level_db : ℚ) : List Effect :=
  let lvl := volumeClamp level_db
  [.send (volumeCmd module_name lvl), .publish zone_id "volume" (.float lvl)]

/-- `_cmd_toggle_mute`: encode and send the O/F command, publish the flag. -/
def cmdToggleMute (zone_id module_name : String) (mute : Bool) : List Effect :=
  [.send (muteCmd module_name mute), .publish zone_id "mute" (.bool mute)]

/-- `_cmd_set_source`: clamp, encode, send, then publish the clamped source. -/
def cmdSetSource (zone_id module_name : String) (source_num : ℤ) : List Effect :=
  let n := sourceClamp source_num
  [.send (sourceCmd module_name n), .publish zone_id "source" (.int n)]

/-- `handle_link_command`: split the link id once on `'_'`; bail out (with
only a printed diagnostic) unless the split yields exactly two parts and the
first names a configured zone; then dispatch on the command alias, or fall
through silently when no alias matches.  `.error` models an exception
escaping (only the `float`/`int` conversions can raise here). -/
def handleLinkCommand (cfg : Config) (link_id : String) (value : PyVal) :
    Except String (List Effect) :=
  let parts := pySplit1 '_' link_id
  if parts.length ≠ 2 then .ok []
  else
    let zone_id := parts.getD 0 ""
    let command := parts.getD 1 ""
    match getZoneConfig cfg zone_id with
    | none => .ok []
    | some zone_config =>
      let volume_module := zone_config.volume_module.getD "Main Volume"
      let mute_module := zone_config.mute_module.getD "Main Volume"
      let source_module := zone_config.source_module.getD "Selector 1"
      if command = "volume" ∨ command = "set_volume" then
        match pyFloat value with
        | none => .error "TypeError in float(value)"
        | some q => .ok (cmdSetVolume zone_id volume_module q)
      else if command = "mute" ∨ command = "toggle_mute" then
        .ok (cmdToggleMute zone_id mute_module (pyBool value))
      else if command = "source" ∨ command = "set_source" then
        match pyInt value with
        | none => .error "TypeError in int(value)"
        | some n => .ok (cmdSetSource zone_id source_module n)
      else .ok []

/-- `handle_command` (legacy shim): rebuild `<zone>_<command>` and delegate. -/
def handleCommand (cfg : Config) (command zone : String) (value : PyVal) :
    Except String (List Effect) :=
  handleLinkCommand cfg (zone ++ "_" ++ command) value

/-! ## Discovery: JSON values and receive events -/

/-- A JSON value as produced by `json.loads`. -/
inductive Json where
  | str (s : String)
  | num (n : ℤ)
  | bool (b : Bool)
  | null
  | arr (xs : List Json)
  | obj (fields : List (String × Json))

/-- Python `dict.get` on a parsed JSON object (first binding wins; the
parser already collapsed duplicate keys). -/
def jget (fields : List (String × Json)) (key : String) : Option Json :=
  (fields.find? (fun f => f.1 == key)).map (fun f => f.2)

/-- One iteration's outcome at the `recvfrom` site of a discovery loop:
either the 1-second poll timed out, or a datagram arrived.  `decoded` is
the result of `data.decode('utf-8')` (`none` = `UnicodeDecodeError`) and
`parsed` the result of `json.loads` on that text (`none` = no valid JSON,
which also covers the undecodable case); `addr` is the sender address, so
`addr0` plays the role of `addr[0]`. -/
inductive RecvEvent where
  | timeout
  | datagram (decoded : Option String) (parsed : Option Json) (addr0 : String)

/-- A Python exception that a discovery loop iteration can raise. -/
inductive PyExc where
  | socketTimeout
  | jsonDecodeError
  | unicodeDecodeError
  | attributeError
deriving DecidableEq, Repr

/-! ## Empire Bridge discovery (`EmpireBridgeDiscovery.discover`) -/

/-- The device dict built for an accepted Empire response.  Payload-derived
fields keep their JSON value (a Python dict holds arbitrary values); `ip`
is the reporting socket address. -/
structure EmpireDevice where
  name : Json
  ip : String
  port : Json
  model : Json
  version : Json
  serial : Json
  capabilities : Json

/-- The device dict literal of `EmpireBridgeDiscovery.discover`, with the
code's `response.get(..., default)` defaults. -/
def empireDeviceOf (fields : List (String × Json)) (addr0 : String) : EmpireDevice :=
  { name := (jget fields "name").getD (.str "Empire Bridge")
    ip := addr0
    port := (jget fields "port").getD (.num 5000)
    model := (jget fields "model").getD (.str "Unknown")
    version := (jget fields "version").getD (.str "Unknown")
    serial := (jget fields "serial").getD (.str "Unknown")
    capabilities := (jget fields "capabilities").getD (.arr []) }

/-- The body of one Empire receive iteration, before exception handling:
`recvfrom` raising on poll timeout, `decode` raising on non-UTF-8 bytes,
`json.loads` raising on malformed JSON, `response.get` raising on a
non-dict value; otherwise `some device` exactly when the `type` field
equals `"empire_bridge"`. -/
def empireBody : RecvEvent → Except PyExc (Option EmpireDevice)
  | .timeout => .error .socketTimeout
  | .datagram decoded parsed addr0 =>
    match decoded with
    | none => .error .unicodeDecodeError
    | some _ =>
      match parsed with
      | none => .error .jsonDecodeError
      | some j =>
        match j with
        | .obj fields =>
          match jget fields "type" with
          | some (.str t) =>
            if t = "empire_bridge" then .ok (some (empireDeviceOf fields addr0))
            else .ok none
          | _ => .ok none
        | _ => .error .attributeError

/-- The Empire loop's handler chain: `except socket.timeout: continue`,
`except json.JSONDecodeError: continue`, `except Exception as e: print`.
Every exception is caught. -/
def empireCaught : PyExc → Bool
  | .socketTimeout => true
  | .jsonDecodeError => true
  | _ => true

/-- The Empire receive loop over a finite event trace: accumulate accepted
devices in arrival order; a caught exception skips the iteration, an
uncaught one would abort the session. -/
def empireLoop : List RecvEvent → List EmpireDevice → Except PyExc (List EmpireDevice)
  | [], devices => .ok devices
  | e :: rest, devices =>
    match empireBody e with
    | .ok (some d) => empireLoop rest (devices ++ [d])
    | .ok none => empireLoop rest devices
    | .error exc => if empireCaught exc then empireLoop rest devices else .error exc

/-- `EmpireBridgeDiscovery.discover`, as a function of the receive trace. -/
def empireDiscover (events : List RecvEvent) : Except PyExc (List EmpireDevice) :=
  empireLoop events []

/-! ## iTach discovery (`GlobalCacheItachIntegration.discover_devices`) -/

/-- The device dict built for an AMXB response. -/
structure ItachDevice where
  ip : String
  port : ℕ
  model : String
  uuid : String
  name : String
deriving DecidableEq, Repr

/-- The body of the `for part in parts` loop of `discover_devices`: update
`uuid` on a part containing `UUID=`, else update `model` (and rebuild
`name`) on a part containing `Model=`.  `part.split('=')[1]` is guarded by
the containment check, so the index is always in range; `getD` supplies an
unreachable default. -/
def itachScanStep (addr0 : String) (d : ItachDevice) (part : String) : ItachDevice :=
  if pyIn "UUID=" part then
    { d with uuid := (pySplitAll '=' part).getD 1 "" }
  else if pyIn "Model=" part then
    let m := (pySplitAll '=' part).getD 1 ""
    { d with model := m, name := "iTach " ++ m ++ " at " ++ addr0 }
  else d

/-- The `for part in parts` loop of `discover_devices`. -/
def itachScanParts (addr0 : String) (parts : List String) (d : ItachDevice) : ItachDevice :=
  parts.foldl (itachScanStep addr0) d

/-- The per-response parse of `discover_devices`: any decoded text
containing `AMXB` yields a device with fixed port 4999 and defaults
`model = uuid = "Unknown"`, `name = "iTach at <ip>"`, refined by scanning
the `-`-separated parts; other text yields nothing. -/
def itachParse (response : String) (addr0 : String) : Option ItachDevice :=
  if pyIn "AMXB" response then
    some (itachScanParts addr0 (pySplitAll '-' response)
      { ip := addr0, port := 4999, model := "Unknown", uuid := "Unknown",
        name := "iTach at " ++ addr0 })
  else none

/-- The body of one iTach receive iteration before exception handling:
`recvfrom` raising on poll timeout, `data.decode('utf-8')` raising on
non-UTF-8 bytes, then the pure parse. -/
def itachBody : RecvEvent → Except PyExc (Option ItachDevice)
  | .timeout => .error .socketTimeout
  | .datagram decoded _ addr0 =>
    match decoded with
    | none => .error .unicodeDecodeError
    | some s => .ok (itachParse s addr0)

/-- The iTach loop's only handler is `except socket.timeout: continue`;
any other exception escapes and aborts the session. -/
def itachCaught : PyExc → Bool
  | .socketTimeout => true
  | _ => false

/-- The iTach receive loop over a finite event trace. -/
def itachLoop : List RecvEvent → List ItachDevice → Except PyExc (List ItachDevice)
  | [], devices => .ok devices
  | e :: rest, devices =>
    match itachBody e with
    | .ok (some d) => itachLoop rest (devices ++ [d])
    | .ok none => itachLoop rest devices
    | .error exc => if itachCaught exc then itachLoop rest devices else .error exc

/-- `GlobalCacheItachIntegration.discover_devices`, as a function of the
receive trace. -/
def itachDiscover (events : List RecvEvent) : Except PyExc (List ItachDevice) :=
  itachLoop events []

/-! ## Reference grammar and concrete configurations -/

/-- The wire grammar of spec §6, `SA"<module>"><index>><value><CR>`,
stated from the spec's words so the encoders above can be compared
against it. -/
def commandGrammar (module_name idx value : String) : String :=
  "SA\"" ++ module_name ++ "\">" ++ idx ++ ">" ++ value ++ "<CR>"

/-- A `master` zone bound to the `Main Volume` / `Selector 1` modules. -/
def masterZone : ZoneCfg :=
  { id := some "master", volume_module := some "Main Volume",
    mute_module := some "Main Volume", source_module := some "Selector 1" }

/-- A serial-connection configuration with the `master` zone. -/
def serialCfg : Config :=
  { connection := some { ctype := some "serial", bridge_id := "" },
    zones := [masterZone], mqtt_client := false }

/-- A bridge-connection configuration. -/
def bridgeCfg : Config :=
  { connection := some { ctype := some "bridge", bridge_id := "b1" },
    zones := [masterZone], mqtt_client := true }

/-- A configuration whose only zone has the empty string as its id. -/
def emptyIdZoneCfg : Config :=
  { connection := some { ctype := some "serial", bridge_id := "" },
    zones := [{ id := some "", volume_module := none, mute_module := none,
                source_module := none }],
    mqtt_client := false }

/-- A configuration whose only zone id contains an underscore. -/
def underscoreZoneCfg : Config :=
  { connection := some { ctype := some "serial", bridge_id := "" },
    zones := [{ id := some "living_room", volume_module := some "LR Volume",
                mute_module := some "LR Volume", source_module := some "Selector 2" }],
    mqtt_client := false }

/-! ## Helper lemmas -/

theorem minus_sixty_point_five : mkRat (-121) 2 = (-60.5 : ℚ) := by
  rw [Rat.mkRat_eq_div]
  norm_num

theorem strDataAppend (a b : String) : (a ++ b).data = a.data ++ b.data := rfl

theorem strExt (s t : String) (h : s.data = t.data) : s = t := by
  cases s; cases t; simp only at h; rw [h]

theorem splitFirst_sep_not_mem_left (sep : Char) :
    ∀ (l a b : List Char), splitFirst sep l = some (a, b) → sep ∉ a := by
  intro l
  induction l with
  | nil => intro a b h; simp [splitFirst] at h
  | cons c cs ih =>
    intro a b h
    by_cases hc : c = sep
    · simp [splitFirst, hc] at h
      rw [h.1]
      simp
    · simp only [splitFirst, if_neg hc] at h
      cases hsf : splitFirst sep cs with
      | none => rw [hsf] at h; simp at h
      | some p =>
        rw [hsf] at h
        simp only [Option.some.injEq, Prod.mk.injEq] at h
        rw [← h.1]
        intro hmem
        rcases List.mem_cons.mp hmem with h1 | h1
        · exact hc h1.symm
        · exact ih p.1 p.2 (by rw [hsf]) h1

theorem splitFirst_none_iff (sep : Char) :
    ∀ l : List Char, splitFirst sep l = none ↔ sep ∉ l := by
  intro l
  induction l with
  | nil => simp [splitFirst]
  | cons c cs ih =>
    by_cases hc : c = sep
    · simp [splitFirst, hc]
    · simp only [splitFirst, if_neg hc]
      cases hsf : splitFirst sep cs with
      | none =>
        simp only [List.mem_cons]
        constructor
        · intro _ hmem
          rcases hmem with h1 | h1
          · exact hc h1.symm
          · exact (ih.mp hsf) h1
        · intro _; trivial
      | some p =>
        simp only [List.mem_cons]
        constructor
        · intro h; simp at h
        · intro hmem
          exact absurd (ih.mpr (fun hm => hmem (Or.inr hm))) (by rw [hsf]; simp)

/-- The first component of a Python `split(sep, 1)` never contains the
separator. -/
theorem pySplit1_head_no_sep (sep : Char) (s : String) :
    sep ∉ ((pySplit1 sep s).getD 0 "").data := by
  unfold pySplit1
  cases hsf : splitFirst sep s.data with
  | none => simpa using (splitFirst_none_iff sep s.data).mp hsf
  | some p =>
    simpa using splitFirst_sep_not_mem_left sep s.data p.1 p.2 (by rw [hsf])

/-- A link id without the separator splits into a single part. -/
theorem pySplit1_no_sep (sep : Char) (s : String) (h : sep ∉ s.data) :
    pySplit1 sep s = [s] := by
  unfold pySplit1
  rw [(splitFirst_none_iff sep s.data).mpr h]

/-- Every exception raised inside the Empire receive loop is caught by one
of its three handlers. -/
theorem empireCaught_true (exc : PyExc) : empireCaught exc = true := by
  cases exc <;> rfl

/-- The Empire receive loop returns normally on every event trace. -/
theorem empireLoop_ok (events : List RecvEvent) :
    ∀ acc, ∃ devices, empireLoop events acc = .ok devices := by
  induction events with
  | nil => intro acc; exact ⟨acc, rfl⟩
  | cons e rest ih =>
    intro acc
    unfold empireLoop
    cases hb : empireBody e with
    | ok od =>
      cases od with
      | none => exact ih acc
      | some d => exact ih (acc ++ [d])
    | error exc => cases exc <;> exact ih acc

/-- The iTach receive loop returns normally when every datagram in the
trace is UTF-8 decodable. -/
theorem itachLoop_ok : ∀ events : List RecvEvent,
    (∀ parsed addr0, RecvEvent.datagram none parsed addr0 ∉ events) →
    ∀ acc, ∃ devices, itachLoop events acc = .ok devices := by
  intro events
  induction events with
  | nil => intro _ acc; exact ⟨acc, rfl⟩
  | cons e rest ih =>
    intro hdec acc
    have hrest : ∀ parsed addr0, RecvEvent.datagram none parsed addr0 ∉ rest :=
      fun parsed addr0 hmem => hdec parsed addr0 (List.mem_cons_of_mem e hmem)
    unfold itachLoop
    cases e with
    | timeout => exact ih hrest acc
    | datagram dec parsed addr0 =>
      cases dec with
      | none => exact absurd (List.mem_cons_self _ _) (hdec parsed addr0)
      | some s =>
        simp only [itachBody]
        cases hp : itachParse s addr0 with
        | none => exact ih hrest acc
        | some d => exact ih hrest (acc ++ [d])

/-- `itachScanStep` never changes the `ip` or `port` fields. -/
theorem itachScanStep_port_ip (addr0 : String) (d : ItachDevice) (part : String) :
    (itachScanStep addr0 d part).port = d.port ∧
    (itachScanStep addr0 d part).ip = d.ip := by
  unfold itachScanStep
  split_ifs <;> exact ⟨rfl, rfl⟩

/-- `itachScanParts` never changes the `ip` or `port` fields. -/
theorem itachScanParts_port_ip (addr0 : String) :
    ∀ (parts : List String) (d : ItachDevice),
      (itachScanParts addr0 parts d).port = d.port ∧
      (itachScanParts addr0 parts d).ip = d.ip := by
  intro parts
  induction parts with
  | nil => intro d; exact ⟨rfl, rfl⟩
  | cons p ps ih =>
    intro d
    unfold itachScanParts at ih ⊢
    rw [List.foldl_cons]
    refine ⟨?_, ?_⟩
    · rw [(ih (itachScanStep addr0 d p)).1, (itachScanStep_port_ip addr0 d p).1]
    · rw [(ih (itachScanStep addr0 d p)).2, (itachScanStep_port_ip addr0 d p).2]

/-- If no part contains `UUID=`, the scan leaves `uuid` at its default. -/
theorem itachScanParts_uuid_default (addr0 : String) :
    ∀ (parts : List String), (∀ part ∈ parts, pyIn "UUID=" part = false) →
      ∀ d : ItachDevice, (itachScanParts addr0 parts d).uuid = d.uuid := by
  intro parts
  induction parts with
  | nil => intro _ d; rfl
  | cons p ps ih =>
    intro hnone d
    unfold itachScanParts at ih ⊢
    rw [List.foldl_cons]
    rw [ih (fun part hm => hnone part (List.mem_cons_of_mem p hm))]
    unfold itachScanStep
    rw [if_neg (by simp [hnone p (List.mem_cons_self p ps)])]
    split_ifs <;> rfl

/-- If no part contains `Model=`, the scan leaves `model` at its default. -/
theorem itachScanParts_model_default (addr0 : String) :
    ∀ (parts : List String), (∀ part ∈ parts, pyIn "Model=" part = false) →
      ∀ d : ItachDevice, (itachScanParts addr0 parts d).model = d.model := by
  intro parts
  induction parts with
  | nil => intro _ d; rfl
  | cons p ps ih =>
    intro hnone d
    unfold itachScanParts at ih ⊢
    rw [List.foldl_cons]
    rw [ih (fun part hm => hnone part (List.mem_cons_of_mem p hm))]
    unfold itachScanStep
    split_ifs with h1 h2
    · rfl
    · rw [hnone p (List.mem_cons_self p ps)] at h2; exact absurd h2 (by simp)
    · rfl

/-- Every `publish_state` performed by `handle_link_command` uses the zone
id parsed from the link id, i.e. the part before the first underscore. -/
theorem handleLinkCommand_publish_zone (cfg : Config) (link_id : String)
    (value : PyVal) (effs : List Effect)
    (hok : handleLinkCommand cfg link_id value = .ok effs)
    (z p : String) (v : PyVal) (hpub : Effect.publish z p v ∈ effs) :
    z = (pySplit1 '_' link_id).getD 0 "" := by
  simp only [handleLinkCommand] at hok
  split at hok
  · simp only [Except.ok.injEq] at hok
    rw [← hok] at hpub
    simp at hpub
  · split at hok
    · simp only [Except.ok.injEq] at hok
      rw [← hok] at hpub
      simp at hpub
    · split at hok
      · split at hok
        · simp at hok
        · simp only [Except.ok.injEq] at hok
          rw [← hok] at hpub
          simp only [cmdSetVolume, List.mem_cons, List.mem_singleton] at hpub
          rcases hpub with h1 | h1 | h1
          · simp at h1
          · injection h1
          · simp at h1
      · split at hok
        · simp only [Except.ok.injEq] at hok
          rw [← hok] at hpub
          simp only [cmdToggleMute, List.mem_cons, List.mem_singleton] at hpub
          rcases hpub with h1 | h1 | h1
          · simp at h1
          · injection h1
          · simp at h1
        · split at hok
          · split at hok
            · simp at hok
            · simp only [Except.ok.injEq] at hok
              rw [← hok] at hpub
              simp only [cmdSetSource, List.mem_cons, List.mem_singleton] at hpub
              rcases hpub with h1 | h1 | h1
              · simp at h1
              · injection h1
              · simp at h1
          · simp only [Except.ok.injEq] at hok
            rw [← hok] at hpub
            simp at hpub

/-! ## Claim theorems -/

/-- C1: the spec claims a `send()` issued while Disconnected performs an
implicit `connect()` before writing.  The code's guard
`not hasattr(self, 'serial_conn') and not hasattr(self, 'writer')` is dead:
`__init__` assigns both attributes, so after `connect()` then
`disconnect()` (state Disconnected, attributes present but `None`),
`send_command` neither reconnects nor writes anything — the command is
silently dropped, contradicting the code's own `# Ensure we have a
connection` comment. -/
theorem c1_send_after_disconnect_is_dropped :
    (disconnect (connect serialCfg initState)).serial_conn = PyAttr.pyNone ∧
    (disconnect (connect serialCfg initState)).serial_conn.hasattr = true ∧
    sendCommand serialCfg (disconnect (connect serialCfg initState))
        (volumeCmd "Main Volume" (-10)) =
      (disconnect (connect serialCfg initState), []) := by
  refine ⟨rfl, rfl, ?_⟩
  rfl

/-- C9 counterexample: calling `connect()` twice on a serial configuration
is not a no-op — the second call opens a fresh serial transport and
overwrites the handle held after the first call. -/
theorem c9_counterexample_second_connect_changes_state :
    connect serialCfg (connect serialCfg initState) ≠ connect serialCfg initState ∧
    (connect serialCfg (connect serialCfg initState)).serial_conn ≠
      (connect serialCfg initState).serial_conn := by
  constructor <;> decide

/-- C9 (amended): `connect()` while already Connected is a no-op only for
the bridge connection type; for `serial` (and `tcp`) it unconditionally
establishes a fresh transport, overwriting the held handle with a new,
distinct one. -/
theorem c9_connect_when_connected (cfg : Config) (st : DeviceState) :
    (connType cfg = "bridge" → connect cfg st = st) ∧
    (connType cfg = "serial" → connect cfg st =
      { st with serial_conn := .val st.nextHandle, nextHandle := st.nextHandle + 1 }) ∧
    (connType cfg = "serial" → ∀ h, st.serial_conn = .val h → h < st.nextHandle →
      (connect cfg st).serial_conn ≠ st.serial_conn) ∧
    (connType cfg = "tcp" → connect cfg st =
      { st with reader := .val st.nextHandle, writer := .val (st.nextHandle + 1),
                nextHandle := st.nextHandle + 2 }) := by
  refine ⟨?_, ?_, ?_, ?_⟩
  · intro hb; unfold connect; rw [hb]; rfl
  · intro hs; unfold connect; rw [hs]; rfl
  · intro hs h hval hlt
    unfold connect; rw [hs]
    simp only [if_pos rfl, hval]
    intro heq
    injection heq with heq
    omega
  · intro ht; unfold connect; rw [ht]; rfl

/-- C9 witness: the amended theorem at a concrete bridge configuration and
a concrete connected serial state. -/
theorem c9_connect_when_connected_witness :
    connect bridgeCfg initState = initState ∧
    (connect serialCfg (connect serialCfg initState)).serial_conn ≠
      (connect serialCfg initState).serial_conn := by
  constructor
  · exact (c9_connect_when_connected bridgeCfg initState).1 rfl
  · exact (c9_connect_when_connected serialCfg (connect serialCfg initState)).2.2.1
      rfl 0 rfl (by decide)

/-- C5: the dispatcher's clamps.  Volume inputs below -60.5 clamp to
-60.5, above 12.0 clamp to 12.0, and in-range values pass through
unchanged; source inputs below 1 map to 1 and above 16 map to 16, in
particular 0 ↦ 1 and 99 ↦ 16. -/
theorem c5_clamp_spec (x : ℚ) (n : ℤ) :
    (x < -60.5 → volumeClamp x = -60.5) ∧
    (12.0 < x → volumeClamp x = 12.0) ∧
    (-60.5 ≤ x → x ≤ 12.0 → volumeClamp x = x) ∧
    (n < 1 → sourceClamp n = 1) ∧
    (16 < n → sourceClamp n = 16) ∧
    sourceClamp 0 = 1 ∧ sourceClamp 99 = 16 := by
  unfold volumeClamp sourceClamp pyMax pyMin pyMaxZ pyMinZ
  rw [minus_sixty_point_five]
  refine ⟨?_, ?_, ?_, ?_, ?_, by decide, by decide⟩
  · intro h; split_ifs <;> linarith
  · intro h; split_ifs <;> linarith
  · intro h1 h2; split_ifs <;> linarith
  · intro h; split_ifs <;> omega
  · intro h; split_ifs <;> omega

/-- C5 witness: the clamp properties at the spec's sample inputs
-100, +100, an in-range -10, and source inputs 0 and 99. -/
theorem c5_clamp_spec_witness :
    volumeClamp (-100) = -60.5 ∧ volumeClamp 100 = 12.0 ∧
    volumeClamp (-10) = -10 ∧ sourceClamp 0 = 1 ∧ sourceClamp 99 = 16 := by
  refine ⟨?_, ?_, ?_, ?_, ?_⟩
  · exact (c5_clamp_spec (-100) 0).1 (by norm_num)
  · exact (c5_clamp_spec 100 0).2.1 (by norm_num)
  · exact (c5_clamp_spec (-10) 0).2.2.1 (by norm_num) (by norm_num)
  · exact (c5_clamp_spec 0 0).2.2.2.2.2.1
  · exact (c5_clamp_spec 0 99).2.2.2.2.1 (by norm_num)

/-- C3: `handle_link_command("master_set_volume", -10)` against any
configuration whose `master` zone resolves to the `Main Volume` module
issues exactly one `send_command` with the literal
`SA"Main Volume">1>-10.0<CR>` followed by exactly one state publication
`("master", "volume", -10.0)`, in that order. -/
theorem c3_master_set_volume (cfg : Config) (zc : ZoneCfg)
    (hz : getZoneConfig cfg "master" = some zc)
    (hv : zc.volume_module.getD "Main Volume" = "Main Volume") :
    handleLinkCommand cfg "master_set_volume" (.int (-10)) =
      .ok [.send "SA\"Main Volume\">1>-10.0<CR>",
           .publish "master" "volume" (.float (-10))] := by
  have hsplit : pySplit1 '_' "master_set_volume" = ["master", "set_volume"] := rfl
  simp only [handleLinkCommand, hsplit]
  rw [if_neg (by simp)]
  rw [show (["master", "set_volume"].getD 0 "") = "master" from rfl,
      show (["master", "set_volume"].getD 1 "") = "set_volume" from rfl]
  split
  · next heq => rw [heq] at hz; exact absurd hz (by simp)
  · next zone_config heq =>
    rw [heq] at hz
    injection hz with hz
    rw [hz, if_pos (Or.inr rfl), hv]
    rfl

/-- C3 witness: the theorem at the concrete serial configuration whose
`master` zone is bound to `Main Volume`. -/
theorem c3_master_set_volume_witness :
    handleLinkCommand serialCfg "master_set_volume" (.int (-10)) =
      .ok [.send "SA\"Main Volume\">1>-10.0<CR>",
           .publish "master" "volume" (.float (-10))] :=
  c3_master_set_volume serialCfg masterZone rfl rfl

/-- C4 counterexample: the claim requires *no* device I/O whenever the
split does not yield two non-empty parts, but the code checks only the
part count.  `"_set_volume"` splits into `["", "set_volume"]` (first part
empty), and with a configured zone whose id is the empty string the
dispatcher performs a transport send. -/
theorem c4_counterexample_empty_zone_part_sends :
    pySplit1 '_' "_set_volume" = ["", "set_volume"] ∧
    handleLinkCommand emptyIdZoneCfg "_set_volume" (.int 0) =
      .ok [.send "SA\"Main Volume\">1>0.0<CR>",
           .publish "" "volume" (.float 0)] :=
  ⟨rfl, by rfl⟩

/-- C4 (amended): `handle_link_command` performs no device I/O and raises
no exception for any link id that does not split into exactly two parts
(in particular one without an underscore), for any link id whose zone part
matches no configured zone, and for any link id whose command part matches
none of the six aliases.  (The code does not require the parts to be
non-empty: an empty zone part is looked up like any other id, see the
counterexample.) -/
theorem c4_malformed_link_ids_silent (cfg : Config) (link_id : String)
    (value : PyVal) :
    ('_' ∉ link_id.data → handleLinkCommand cfg link_id value = .ok []) ∧
    (∀ z c, pySplit1 '_' link_id = [z, c] → getZoneConfig cfg z = none →
      handleLinkCommand cfg link_id value = .ok []) ∧
    (∀ z c zc, pySplit1 '_' link_id = [z, c] → getZoneConfig cfg z = some zc →
      c ≠ "volume" → c ≠ "set_volume" → c ≠ "mute" → c ≠ "toggle_mute" →
      c ≠ "source" → c ≠ "set_source" →
      handleLinkCommand cfg link_id value = .ok []) := by
  refine ⟨?_, ?_, ?_⟩
  · intro h
    simp only [handleLinkCommand, pySplit1_no_sep '_' link_id h]
    rw [if_pos (by simp)]
  · intro z c hsplit hzone
    simp only [handleLinkCommand, hsplit]
    rw [if_neg (by simp)]
    rw [show ([z, c].getD 0 "") = z from rfl]
    split
    · next => rfl
    · next zone_config heq => rw [heq] at hzone; exact absurd hzone (by simp)
  · intro z c zc hsplit hzone h1 h2 h3 h4 h5 h6
    simp only [handleLinkCommand, hsplit]
    rw [if_neg (by simp)]
    rw [show ([z, c].getD 0 "") = z from rfl,
        show ([z, c].getD 1 "") = c from rfl]
    split
    · next heq => rw [heq] at hzone
    · next zone_config heq =>
      rw [if_neg (by simp [h1, h2]), if_neg (by simp [h3, h4]),
          if_neg (by simp [h5, h6])]

/-- C4 witness: the amended theorem at the underscore-free link id
`"masterzone"`, at an unknown zone, and at an unknown command alias. -/
theorem c4_malformed_link_ids_silent_witness :
    handleLinkCommand serialCfg "masterzone" (.float 0.5) = .ok [] ∧
    handleLinkCommand serialCfg "kitchen_set_volume" (.int 3) = .ok [] ∧
    handleLinkCommand serialCfg "master_power" (.int 1) = .ok [] := by
  refine ⟨?_, ?_, ?_⟩
  · exact (c4_malformed_link_ids_silent serialCfg "masterzone" (.float 0.5)).1
      (by decide)
  · exact (c4_malformed_link_ids_silent serialCfg "kitchen_set_volume" (.int 3)).2.1
      "kitchen" "set_volume" rfl rfl
  · exact (c4_malformed_link_ids_silent serialCfg "master_power" (.int 1)).2.2
      "master" "power" masterZone rfl rfl (by decide) (by decide) (by decide)
      (by decide) (by decide) (by decide)

/-- C10: a configured zone whose id contains an underscore is unreachable:
the dispatcher looks up only the substring before the first underscore, so
no link id ever publishes state for such a zone and the zone lookup never
returns it; the `handle_command` shim drops its commands the same way
because it rebuilds `<zone>_<command>` and delegates. -/
theorem c10_underscore_zone_unreachable (cfg : Config) (zc : ZoneCfg)
    (s : String) (_hmem : zc ∈ cfg.zones) (hid : zc.id = some s)
    (hu : '_' ∈ s.data) (link_id : String) (value : PyVal)
    (effs : List Effect)
    (hok : handleLinkCommand cfg link_id value = .ok effs) :
    (∀ p v, Effect.publish s p v ∉ effs) ∧
    getZoneConfig cfg ((pySplit1 '_' link_id).getD 0 "") ≠ some zc ∧
    (∀ c v, handleCommand cfg c s v = handleLinkCommand cfg (s ++ "_" ++ c) v) := by
  refine ⟨?_, ?_, fun c v => rfl⟩
  · intro p v hpub
    have hz := handleLinkCommand_publish_zone cfg link_id value effs hok s p v hpub
    have := pySplit1_head_no_sep '_' link_id
    rw [← hz] at this
    exact this hu
  · intro hfind
    have hp := List.find?_some hfind
    simp only [beq_iff_eq] at hp
    rw [hid] at hp
    have hkey : s = (pySplit1 '_' link_id).getD 0 "" := by
      injection hp
    have := pySplit1_head_no_sep '_' link_id
    rw [← hkey] at this
    exact this hu

/-- C10 witness: the theorem at the concrete configuration holding only
the zone `living_room`, with the link id `"living_room_set_volume"`. -/
theorem c10_underscore_zone_unreachable_witness :
    (∀ p v, Effect.publish "living_room" p v ∉ ([] : List Effect)) ∧
    getZoneConfig underscoreZoneCfg
      ((pySplit1 '_' "living_room_set_volume").getD 0 "") ≠
      some { id := some "living_room", volume_module := some "LR Volume",
             mute_module := some "LR Volume", source_module := some "Selector 2" } := by
  have h := c10_underscore_zone_unreachable underscoreZoneCfg
    { id := some "living_room", volume_module := some "LR Volume",
      mute_module := some "LR Volume", source_module := some "Selector 2" }
    "living_room" (by decide) rfl (by decide)
    "living_room_set_volume" (.int 0) [] rfl
  exact ⟨h.1, h.2.1⟩

/-- C2 counterexample: the iTach receive loop catches only
`socket.timeout`, so a single non-UTF-8-decodable datagram raises
`UnicodeDecodeError` out of `discover_devices` and aborts the session —
the claim that neither session ever raises on a malformed response is
false. -/
theorem c2_counterexample_itach_aborts_on_nonutf8 :
    itachDiscover [RecvEvent.datagram none none "10.0.0.9"] =
      .error PyExc.unicodeDecodeError := rfl

/-- C2 (amended): the Empire session never raises — every per-iteration
exception (poll timeout, undecodable bytes, malformed JSON, non-object
JSON) is caught and the loop continues, so it always returns a (possibly
empty) device list; the iTach session returns a device list provided every
received datagram is UTF-8 decodable, but an undecodable datagram escapes
its only (`socket.timeout`) handler, see the counterexample. -/
theorem c2_discovery_loops_tolerate_bad_responses (events : List RecvEvent) :
    (∃ devices, empireDiscover events = .ok devices) ∧
    ((∀ parsed addr0, RecvEvent.datagram none parsed addr0 ∉ events) →
      ∃ devices, itachDiscover events = .ok devices) :=
  ⟨empireLoop_ok events [], fun hdec => itachLoop_ok events hdec []⟩

/-- C2 witness: both sessions return normally on a trace consisting of a
poll timeout followed by a decodable but non-JSON datagram. -/
theorem c2_discovery_loops_tolerate_bad_responses_witness :
    (∃ devices, empireDiscover
      [RecvEvent.timeout, RecvEvent.datagram (some "junk") none "10.0.0.7"] =
        .ok devices) ∧
    (∃ devices, itachDiscover
      [RecvEvent.timeout, RecvEvent.datagram (some "junk") none "10.0.0.7"] =
        .ok devices) := by
  have h := c2_discovery_loops_tolerate_bad_responses
    [RecvEvent.timeout, RecvEvent.datagram (some "junk") none "10.0.0.7"]
  exact ⟨h.1, h.2 (by intro parsed addr0; simp)⟩

/-- C6: an Empire datagram is accepted as a device iff it is UTF-8
decodable and parses as a JSON object whose `type` field is the string
`"empire_bridge"`; the sample response from address `A` yields exactly one
device with `ip = "A"`, `port = 5001`, `name = "X"`, and the same response
without the `type` field yields zero devices. -/
theorem c6_empire_accept_iff (decoded : Option String) (parsed : Option Json)
    (addr0 : String) :
    ((∃ d, empireBody (.datagram decoded parsed addr0) = .ok (some d)) ↔
      (decoded.isSome = true ∧ ∃ fields, parsed = some (.obj fields) ∧
        jget fields "type" = some (.str "empire_bridge"))) ∧
    empireDiscover
      [.datagram (some "\x7b\"type\": \"empire_bridge\", \"name\": \"X\", \"port\": 5001\x7d")
        (some (.obj [("type", .str "empire_bridge"), ("name", .str "X"),
                     ("port", .num 5001)])) "A"] =
      .ok [{ name := .str "X", ip := "A", port := .num 5001,
             model := .str "Unknown", version := .str "Unknown",
             serial := .str "Unknown", capabilities := .arr [] }] ∧
    empireDiscover
      [.datagram (some "\x7b\"name\": \"X\", \"port\": 5001\x7d")
        (some (.obj [("name", .str "X"), ("port", .num 5001)])) "A"] =
      .ok [] := by
  refine ⟨⟨?_, ?_⟩, rfl, rfl⟩
  · rintro ⟨d, hd⟩
    cases decoded with
    | none => simp [empireBody] at hd
    | some s =>
      cases parsed with
      | none => simp [empireBody] at hd
      | some j =>
        cases j with
        | obj fields =>
          simp only [empireBody] at hd
          refine ⟨rfl, fields, rfl, ?_⟩
          cases hjg : jget fields "type" with
          | none => rw [hjg] at hd; simp at hd
          | some jv =>
            rw [hjg] at hd
            cases jv with
            | str t =>
              by_cases ht : t = "empire_bridge"
              · rw [ht]
              · simp [ht] at hd
            | num k => simp at hd
            | bool c => simp at hd
            | null => simp at hd
            | arr xs => simp at hd
            | obj fs => simp at hd
        | str t => simp [empireBody] at hd
        | num k => simp [empireBody] at hd
        | bool c => simp [empireBody] at hd
        | null => simp [empireBody] at hd
        | arr xs => simp [empireBody] at hd
  · rintro ⟨hdec, fields, hp, hjg⟩
    cases decoded with
    | none => simp at hdec
    | some s =>
      rw [hp]
      refine ⟨empireDeviceOf fields addr0, ?_⟩
      simp only [empireBody]
      rw [hjg]
      rfl

/-- C7: any UTF-8-decoded iTach response is accepted iff it contains the
substring `AMXB`; every accepted device carries the fixed control port
4999 and the sender's address; `uuid` and `model` default to `"Unknown"`
when no `-`-delimited segment carries `UUID=` / `Model=`; and the sample
beacon extracts `uuid = "abc"`, `model = "EX1"`. -/
theorem c7_itach_response_parsing (s addr0 : String) :
    ((itachParse s addr0).isSome = true ↔ pyIn "AMXB" s = true) ∧
    (∀ d, itachParse s addr0 = some d → d.port = 4999 ∧ d.ip = addr0) ∧
    ((∀ part ∈ pySplitAll '-' s, pyIn "UUID=" part = false) →
      ∀ d, itachParse s addr0 = some d → d.uuid = "Unknown") ∧
    ((∀ part ∈ pySplitAll '-' s, pyIn "Model=" part = false) →
      ∀ d, itachParse s addr0 = some d → d.model = "Unknown") ∧
    itachParse "AMXB<-UUID=abc-Model=EX1-" "192.168.1.50" =
      some { ip := "192.168.1.50", port := 4999, model := "EX1", uuid := "abc",
             name := "iTach EX1 at 192.168.1.50" } := by
  refine ⟨?_, ?_, ?_, ?_, rfl⟩
  · unfold itachParse
    by_cases h : pyIn "AMXB" s = true
    · rw [if_pos h]; simp [h]
    · rw [if_neg h]; simpa using h
  · intro d hd
    unfold itachParse at hd
    split_ifs at hd with h
    · injection hd with hd
      rw [← hd]
      exact ⟨(itachScanParts_port_ip addr0 (pySplitAll '-' s) _).1,
             (itachScanParts_port_ip addr0 (pySplitAll '-' s) _).2⟩
  · intro hnone d hd
    unfold itachParse at hd
    split_ifs at hd with h
    · injection hd with hd
      rw [← hd]
      exact itachScanParts_uuid_default addr0 (pySplitAll '-' s) hnone _
  · intro hnone d hd
    unfold itachParse at hd
    split_ifs at hd with h
    · injection hd with hd
      rw [← hd]
      exact itachScanParts_model_default addr0 (pySplitAll '-' s) hnone _

/-- C7 witness: acceptance and the uuid default at concrete responses
(`"AMXB"` alone has no `UUID=`/`Model=` segment). -/
theorem c7_itach_response_parsing_witness :
    (itachParse "AMXB" "10.0.0.3").isSome = true ∧
    (∀ d, itachParse "AMXB" "10.0.0.3" = some d → d.uuid = "Unknown") ∧
    (∀ d, itachParse "AMXB" "10.0.0.3" = some d → d.port = 4999 ∧ d.ip = "10.0.0.3") := by
  have h := c7_itach_response_parsing "AMXB" "10.0.0.3"
  exact ⟨h.1.mpr (by decide), h.2.2.1 (by decide), h.2.1⟩

/-- C8: every encoded command matches the grammar
`SA"<module>"><index>><value><CR>` (index 1 for level/source, index 2 for
mute with literal payload `O`/`F`); the encoder output still carries the
literal `<CR>` placeholder (no carriage-return byte), and the placeholder
is substituted with a single CR byte inside `send_command`, at
transport-write time. -/
theorem c8_grammar_and_send_time_substitution (m : String) (l : ℚ) (b : Bool)
    (n : ℤ) (cfg : Config) (st : DeviceState) (command : String)
    (hser : connType cfg = "serial") (hconn : st.serial_conn.truthy = true) :
    volumeCmd m l = commandGrammar m "1" (pyFloatStr l) ∧
    muteCmd m b = commandGrammar m "2" (if b then "O" else "F") ∧
    sourceCmd m n = commandGrammar m "1" (toString n) ∧
    (sendCommand cfg st command).2 =
      [Wire.serialWrite (command.replace "<CR>" "\r")] ∧
    pyIn "<CR>" (muteCmd "Main Volume" b) = true ∧
    (muteCmd "Main Volume" b).data.count '\r' = 0 := by
  refine ⟨?_, ?_, ?_, ?_, ?_, ?_⟩
  · apply strExt
    simp [volumeCmd, commandGrammar, strDataAppend, List.append_assoc]
  · apply strExt
    simp [muteCmd, commandGrammar, strDataAppend, List.append_assoc]
  · apply strExt
    simp [sourceCmd, commandGrammar, strDataAppend, List.append_assoc]
  · obtain ⟨a, ha⟩ : ∃ a, st.serial_conn = .val a := by
      cases hsc : st.serial_conn with
      | missing => rw [hsc] at hconn; exact absurd hconn (by simp [PyAttr.truthy])
      | pyNone => rw [hsc] at hconn; exact absurd hconn (by simp [PyAttr.truthy])
      | val a => exact ⟨a, rfl⟩
    simp only [sendCommand, hser, ha]
    simp [PyAttr.hasattr, PyAttr.truthy, ha]
  · cases b <;> rfl
  · cases b <;> rfl

/-- C8 witness: the theorem at a connected serial instance and the mute
command for `Main Volume`. -/
theorem c8_grammar_and_send_time_substitution_witness :
    (sendCommand serialCfg (connect serialCfg initState)
        (muteCmd "Main Volume" true)).2 =
      [Wire.serialWrite ((muteCmd "Main Volume" true).replace "<CR>" "\r")] :=
  (c8_grammar_and_send_time_substitution "Main Volume" 0 true 0 serialCfg
    (connect serialCfg initState) (muteCmd "Main Volume" true) rfl rfl).2.2.2.1

end EmpireAudio
